import Mathlib

/-!
Verification development for `src/seatalk_hardware_layer.c` of the
seatalk-hardware-linux-gpio repository.

The C file is the hardware-signal layer of a SeaTalk bus driver: an edge
interrupt handler (`rxd_irq_handler`), two high-resolution timer callbacks
(`receive_bit`, `transmit_bit`), GPIO read/write helpers, and the bootstrap
function `seatalk_init_hardware_signal`.

Modelling conventions for the shallow embedding:
* An hrtimer is modelled as an `Option` of its relative expiry in nanoseconds
  from now: `some d` means armed, `none` means disarmed. `hrtimer_start t d`
  becomes `timer := some d`. Inside an expiry callback, `hrtimer_forward_now`
  advances the just-expired timer's expiry only when that expiry is not
  already in the future (`hrtimer_forward` returns without change on
  `delta < 0`), and the advanced expiry takes effect only when the callback
  returns `HRTIMER_RESTART`; returning `HRTIMER_NORESTART` leaves the timer
  disarmed (`timer := none`). `hrtimer_cancel` also gives `none`.
* C `int` arithmetic that can overflow is modelled on `Int` with an explicit
  wrap into the signed 32-bit range (`wrap32`, a `% 2^32` reduction).
* The transport-layer collaborator (the separate seatalk base library, not in
  this repository) is abstracted as an oracle: its boolean answers
  (`seatalk_initiate_receive_character`, `seatalk_receive_bit`,
  `seatalk_transmit_bit`) are inputs of the embedded handlers, indexed by call
  order where a whole run is modelled.
* GPIO electrical levels are `Nat` (`0` low, nonzero high), logical bit values
  are `Nat` as in the C ints.
-/

set_option linter.unusedVariables false

namespace SeatalkHardware

/-! ## Constants (lines 19-49 of src/seatalk_hardware_layer.c) -/

/-- `#define GPIO_RXD_PIN 23` — the pin input signals are read from. -/
def GPIO_RXD_PIN : Nat := 23

/-- `#define GPIO_TXD_PIN 24` — the pin output signals are written to. -/
def GPIO_TXD_PIN : Nat := 24

/-- `#define GPIO_RX_LOW_VALUE 1` -/
def GPIO_RX_LOW_VALUE : Nat := 1

/-- `#define GPIO_RX_HIGH_VALUE 0` -/
def GPIO_RX_HIGH_VALUE : Nat := 0

/-- `#define GPIO_TX_LOW_VALUE 1` -/
def GPIO_TX_LOW_VALUE : Nat := 1

/-- `#define GPIO_TX_HIGH_VALUE 0` -/
def GPIO_TX_HIGH_VALUE : Nat := 0

/-- `#define SEATALK_PORT 0` — all communications are through port zero. -/
def SEATALK_PORT : Nat := 0

/-- `#define BIT_INTERVAL 208333` — bit timer period in nanoseconds
(1000000000 ns/s / 4800 bits/s). -/
def BIT_INTERVAL : Nat := 208333

/-- `#define START_BIT_DELAY (BIT_INTERVAL / 4)` — extra delay after the
triggering edge of a start bit. -/
def START_BIT_DELAY : Nat := BIT_INTERVAL / 4

/-- `#define DEBOUNCE_NANOS 60000` — quiet window after a byte's stop bit. -/
def DEBOUNCE_NANOS : Nat := 60000

/-! ## Receive-side state (lines 56-99, 114-139) -/

/-- Receive-side mutable state of the hardware layer: the global
`int debouncing` flag (line 63) and the `hrtimer_rxd` timer (line 56),
`some d` = armed with relative expiry `d` ns, `none` = disarmed. -/
structure RxState where
  debouncing : Bool
  timer : Option Nat
deriving DecidableEq, Repr

/-- The receiver's idle state: not debouncing, timer disarmed (the state after
`seatalk_init_hardware_signal`, which initializes `hrtimer_rxd` without
starting it). -/
def rxIdle : RxState := { debouncing := false, timer := none }

/-- `rxd_irq_handler` (lines 78-99): on an edge, if `debouncing` the handler
does nothing (only logs); otherwise it consults the transport layer and, when
`seatalk_initiate_receive_character` returns truthy (`may_begin`), starts
`hrtimer_rxd` for `BIT_INTERVAL + START_BIT_DELAY`; when it returns falsy the
handler does nothing. -/
def rxd_irq_handler (may_begin : Bool) (s : RxState) : RxState :=
  if s.debouncing then s
  else if may_begin then { s with timer := some (BIT_INTERVAL + START_BIT_DELAY) }
  else s

/-- `receive_bit` (lines 116-139), the `hrtimer_rxd` expiry callback.
If `debouncing`: clear the flag and return `HRTIMER_NORESTART` (timer left
disarmed). Otherwise line 126 forwards the just-expired timer by
`BIT_INTERVAL` (the expiry was in the past, so this advances it into the
future), and the transport layer's `seatalk_receive_bit` is called;
`more_bits` is its return value. Truthy: `HRTIMER_RESTART`, rearming for
`BIT_INTERVAL`. Falsy: the second `hrtimer_forward_now` for `DEBOUNCE_NANOS`
at line 133 is a no-op — `hrtimer_forward` returns without change because the
expiry is already in the future after line 126 — so setting `debouncing = 1`
and returning `HRTIMER_RESTART` rearms for `BIT_INTERVAL`, not for the
`DEBOUNCE_NANOS` the comment on line 132 announces. -/
def receive_bit (more_bits : Bool) (s : RxState) : RxState :=
  if s.debouncing then { debouncing := false, timer := none }
  else if more_bits then { s with timer := some BIT_INTERVAL }
  else { debouncing := true, timer := some BIT_INTERVAL }

/-- A receive run: the hardware-layer state together with the number of calls
made so far to the transport layer's per-bit intake `seatalk_receive_bit`. -/
structure RxRun where
  state : RxState
  intake_calls : Nat
deriving DecidableEq, Repr

/-- One `hrtimer_rxd` expiry opportunity in a run: a firing happens only while
the timer is armed. `oracle i` is the value `seatalk_receive_bit` returns on
its `(i+1)`-th call; the intake is called exactly when the callback runs with
`debouncing == 0` (lines 119, 128), so the call counter advances exactly
then. -/
def rxTimerFire (oracle : Nat → Bool) (r : RxRun) : RxRun :=
  match r.state.timer with
  | none => r
  | some _ =>
    { state := receive_bit (oracle r.intake_calls) r.state,
      intake_calls := if r.state.debouncing then r.intake_calls else r.intake_calls + 1 }

/-! ## Transmit-side state (lines 70-74, 141-164) -/

/-- A transmit run: the `hrtimer_txd` timer (`some d` = armed with relative
expiry `d` ns, `none` = disarmed; `Int` because the C `int` arithmetic arming
it can wrap to a negative value) together with the number of calls made so
far to the transport layer's `seatalk_transmit_bit` (one call per bit
written). -/
structure TxRun where
  timer : Option Int
  writes : Nat
deriving DecidableEq, Repr

/-- `transmit_bit` (lines 143-155), the `hrtimer_txd` expiry callback, as the
timer state it leaves behind. `more_bits` is `seatalk_transmit_bit`'s return
value: truthy means the `hrtimer_forward_now` rearm for `BIT_INTERVAL` takes
effect (`HRTIMER_RESTART`); falsy means `HRTIMER_NORESTART`, leaving the timer
disarmed until `seatalk_initiate_hardware_transmitter` is called again. -/
def transmit_bit (more_bits : Bool) : Option Int :=
  if more_bits then some (BIT_INTERVAL : Int) else none

/-- Two's-complement wrap of an integer into the signed 32-bit range
[-2^31, 2^31), written as an explicit `% 2^32` reduction: the value a wrapping
C `int` computation stores (2147483648 = 2^31, 4294967296 = 2^32). -/
def wrap32 (n : Int) : Int := (n + 2147483648) % 4294967296 - 2147483648

/-- One `hrtimer_txd` expiry opportunity in a run: a firing happens only while
the timer is armed; each firing makes exactly one call to
`seatalk_transmit_bit` (writing one bit), whose return value on its
`(i+1)`-th call is `oracle i`. -/
def txTimerFire (oracle : Nat → Bool) (r : TxRun) : TxRun :=
  match r.timer with
  | none => r
  | some _ => { timer := transmit_bit (oracle r.writes), writes := r.writes + 1 }

/-- `seatalk_initiate_hardware_transmitter` (lines 158-164): first
`hrtimer_cancel(&hrtimer_txd)` stops any pending timer, then `hrtimer_start`
arms it for `ktime_set(0, BIT_INTERVAL * bit_delay)`, where the product
`BIT_INTERVAL * bit_delay` is computed in 32-bit C `int` arithmetic and so
wraps for `bit_delay ≥ 10308`. The `seatalk_port` argument is unused by the
body. -/
def seatalk_initiate_hardware_transmitter (seatalk_port : Nat) (bit_delay : Nat)
    (r : TxRun) : TxRun :=
  { timer := some (wrap32 (BIT_INTERVAL * bit_delay)), writes := r.writes }

/-! ## Line interface (lines 102-112) -/

/-- The fixed electrical-to-logical mapping used by
`seatalk_get_hardware_bit_value` (line 103): a nonzero GPIO level reads as
`GPIO_RX_HIGH_VALUE`, a zero level as `GPIO_RX_LOW_VALUE`. -/
def rx_decode (level : Nat) : Nat :=
  if level ≠ 0 then GPIO_RX_HIGH_VALUE else GPIO_RX_LOW_VALUE

/-- `seatalk_get_hardware_bit_value` (lines 102-104): reads the level of
`GPIO_RXD_PIN` from the GPIO environment (`gpio_get_value`) and decodes it
with the fixed mapping. The `seatalk_port` argument is unused by the body. -/
def seatalk_get_hardware_bit_value (seatalk_port : Nat) (gpio_get_value : Nat → Nat) : Nat :=
  rx_decode (gpio_get_value GPIO_RXD_PIN)

/-- A GPIO write as performed by `gpio_set_value`: which pin is driven and to
which electrical level. -/
structure GpioWrite where
  pin : Nat
  level : Nat
deriving DecidableEq, Repr

/-- `seatalk_set_hardware_bit_value` (lines 107-112): drives `GPIO_TXD_PIN` to
electrical level 1 when the requested logical value equals
`GPIO_TX_HIGH_VALUE` and to 0 otherwise. The `seatalk_port` argument is unused
by the body. -/
def seatalk_set_hardware_bit_value (seatalk_port : Nat) (bit_value : Nat) : GpioWrite :=
  { pin := GPIO_TXD_PIN, level := if bit_value = GPIO_TX_HIGH_VALUE then 1 else 0 }

/-! ## Bootstrap (lines 167-200) -/

/-- Outcome of `seatalk_init_hardware_signal`: the returned int and which GPIO
pins remain reserved when it returns. -/
structure HwInitResult where
  ret : Int
  rxd_reserved : Bool
  txd_reserved : Bool
deriving DecidableEq, Repr

/-- `seatalk_init_hardware_signal` (lines 167-200). `rxd_request_ok` /
`txd_request_ok` say whether the two `gpio_request` calls succeed (return 0).
RxD request failing: `goto cleanup`, return -1 with nothing reserved. TxD
request failing: `goto cleanup_rx` frees the already-reserved RxD pin, then
return -1. Both succeeding: return 0 with both pins reserved. -/
def seatalk_init_hardware_signal (rxd_request_ok txd_request_ok : Bool) : HwInitResult :=
  if !rxd_request_ok then { ret := -1, rxd_reserved := false, txd_reserved := false }
  else if !txd_request_ok then { ret := -1, rxd_reserved := false, txd_reserved := false }
  else { ret := 0, rxd_reserved := true, txd_reserved := true }

/-! ## First theorems: C4 (idle edge) and C6 (timing constants) -/

/-- C4: when a qualifying edge arrives with the receiver idle and the debounce
guard not armed, the receive timer is armed for
`BIT_INTERVAL + START_BIT_DELAY` if and only if the collaborator's may-begin
query (`seatalk_initiate_receive_character`) returns true; when it returns
false the edge has no effect and the receiver stays idle with no timer armed. -/
theorem idle_edge_arms_timer_iff_may_begin (may_begin : Bool) :
    rxd_irq_handler may_begin rxIdle =
      (if may_begin then
        { debouncing := false, timer := some (BIT_INTERVAL + START_BIT_DELAY) }
      else rxIdle) := by
  cases may_begin <;> rfl

/-- C6: at the 4800-baud configuration the timing constants satisfy, in exact
integer nanosecond arithmetic, `BIT_INTERVAL = 208333 = 10^9 / 4800`,
`START_BIT_DELAY = BIT_INTERVAL / 4 = 52083`, and an accepted start edge at
t = 0 schedules the first bit-sample expiry at
t = `BIT_INTERVAL + START_BIT_DELAY` = 260416 ns. -/
theorem timing_constants_4800_baud :
    BIT_INTERVAL = 208333 ∧
    BIT_INTERVAL = 1000000000 / 4800 ∧
    START_BIT_DELAY = BIT_INTERVAL / 4 ∧
    START_BIT_DELAY = 52083 ∧
    BIT_INTERVAL + START_BIT_DELAY = 260416 ∧
    (rxd_irq_handler true rxIdle).timer = some 260416 := by
  refine ⟨rfl, rfl, rfl, rfl, rfl, rfl⟩

/-- C5 counterexample: at guard delay 10308 the 32-bit `int` product
`BIT_INTERVAL * 10308` = 2147496564 exceeds 2^31 - 1 and wraps to
-2147470732, so the timer is not armed for `BIT_INTERVAL * 10308`. -/
theorem initiate_transmitter_overflow_counterexample :
    (seatalk_initiate_hardware_transmitter SEATALK_PORT 10308
        { timer := none, writes := 0 }).timer = some (-2147470732) ∧
    (seatalk_initiate_hardware_transmitter SEATALK_PORT 10308
        { timer := none, writes := 0 }).timer ≠
      some ((BIT_INTERVAL * 10308 : Int)) := by
  exact ⟨by decide, by decide⟩

/-- C5 amended: for every guard delay `g`, calling
`seatalk_initiate_hardware_transmitter` — at any time, including while already
sending — first cancels any in-flight transmit timer and then arms it for the
value of `BIT_INTERVAL * g` computed in wrapping 32-bit `int` arithmetic
(equal to `BIT_INTERVAL * g` itself whenever `g < 10308`), so at most one
transmit timer is ever active, the result does not depend on the old schedule,
and no bit scheduled under the old schedule is written after the new call. -/
theorem initiate_transmitter_cancels_and_rearms_wrap32 (p g : Nat) (r : TxRun)
    (oracle : Nat → Bool) (m : Nat) :
    seatalk_initiate_hardware_transmitter p g r =
      { timer := some (wrap32 (BIT_INTERVAL * g)), writes := r.writes } ∧
    (txTimerFire oracle)^[m] (seatalk_initiate_hardware_transmitter p g r) =
      (txTimerFire oracle)^[m]
        { timer := some (wrap32 (BIT_INTERVAL * g)), writes := r.writes } ∧
    (g < 10308 → wrap32 (BIT_INTERVAL * g) = BIT_INTERVAL * g) := by
  refine ⟨rfl, rfl, fun hg => ?_⟩
  have hle : BIT_INTERVAL * g ≤ 2147288231 := by
    have h2 : BIT_INTERVAL * g ≤ BIT_INTERVAL * 10307 :=
      Nat.mul_le_mul_left _ (by omega)
    simpa [BIT_INTERVAL] using h2
  have hcast : (BIT_INTERVAL : Int) * (g : Int) = ((BIT_INTERVAL * g : Nat) : Int) := by
    push_cast
    ring
  have h3 : ((BIT_INTERVAL * g : Nat) : Int) ≤ 2147288231 := by exact_mod_cast hle
  have h4 : (0 : Int) ≤ ((BIT_INTERVAL * g : Nat) : Int) := Int.ofNat_nonneg _
  unfold wrap32
  rw [hcast]
  omega

/-- Witness for the amended C5 at concrete inputs: port 1, guard delay 5, a
transmitter already mid-flight with an armed timer and 7 bits written, two
later firing opportunities. -/
theorem initiate_transmitter_cancels_and_rearms_wrap32_witness :
    seatalk_initiate_hardware_transmitter 1 5 { timer := some 99, writes := 7 } =
      { timer := some (wrap32 (BIT_INTERVAL * (5 : Nat))), writes := 7 } ∧
    (txTimerFire (fun _ => true))^[2]
        (seatalk_initiate_hardware_transmitter 1 5 { timer := some 99, writes := 7 }) =
      (txTimerFire (fun _ => true))^[2]
        { timer := some (wrap32 (BIT_INTERVAL * (5 : Nat))), writes := 7 } ∧
    wrap32 (BIT_INTERVAL * (5 : Nat)) = (BIT_INTERVAL * (5 : Nat) : Int) :=
  ⟨(initiate_transmitter_cancels_and_rearms_wrap32 1 5
      { timer := some 99, writes := 7 } (fun _ => true) 2).1,
   (initiate_transmitter_cancels_and_rearms_wrap32 1 5
      { timer := some 99, writes := 7 } (fun _ => true) 2).2.1,
   (initiate_transmitter_cancels_and_rearms_wrap32 1 5
      { timer := some 99, writes := 7 } (fun _ => true) 2).2.2 (by decide)⟩

/-- C8: `seatalk_init_hardware_signal` returns 0 exactly when both GPIO pin
reservations succeed; if either fails it returns the single failure value -1,
and any pin reserved before the failure has been released again, so a failed
call leaves no pin reserved. -/
theorem init_hardware_signal_all_or_nothing (rxd_request_ok txd_request_ok : Bool) :
    seatalk_init_hardware_signal rxd_request_ok txd_request_ok =
      { ret := if rxd_request_ok && txd_request_ok then 0 else -1,
        rxd_reserved := rxd_request_ok && txd_request_ok,
        txd_reserved := rxd_request_ok && txd_request_ok } := by
  cases rxd_request_ok <;> cases txd_request_ok <;> rfl

/-- C9: the read and write polarity mappings are mutually inverse: for each
logical value v ∈ \x7b0, 1\x7d, decoding (with the fixed electrical-to-logical
mapping of `seatalk_get_hardware_bit_value`) the GPIO level that
`seatalk_set_hardware_bit_value` drives for v yields v again. -/
theorem polarity_roundtrip :
    rx_decode (seatalk_set_hardware_bit_value SEATALK_PORT 0).level = 0 ∧
    rx_decode (seatalk_set_hardware_bit_value SEATALK_PORT 1).level = 1 ∧
    seatalk_get_hardware_bit_value SEATALK_PORT
      (fun pin => (seatalk_set_hardware_bit_value SEATALK_PORT 0).level) = 0 ∧
    seatalk_get_hardware_bit_value SEATALK_PORT
      (fun pin => (seatalk_set_hardware_bit_value SEATALK_PORT 1).level) = 1 := by
  refine ⟨rfl, rfl, rfl, rfl⟩

/-- C10: the `seatalk_port` argument of `seatalk_get_hardware_bit_value`,
`seatalk_set_hardware_bit_value` and `seatalk_initiate_hardware_transmitter`
is ignored: any two calls differing only in the port have equal observable
effects, and reads and writes act on the single fixed RxD/TxD pin pair. -/
theorem port_argument_is_ignored (p q : Nat) (gpio_get_value : Nat → Nat)
    (bit_value g : Nat) (r : TxRun) :
    seatalk_get_hardware_bit_value p gpio_get_value =
      seatalk_get_hardware_bit_value q gpio_get_value ∧
    seatalk_set_hardware_bit_value p bit_value =
      seatalk_set_hardware_bit_value q bit_value ∧
    seatalk_initiate_hardware_transmitter p g r =
      seatalk_initiate_hardware_transmitter q g r ∧
    seatalk_get_hardware_bit_value p gpio_get_value =
      rx_decode (gpio_get_value GPIO_RXD_PIN) ∧
    (seatalk_set_hardware_bit_value p bit_value).pin = GPIO_TXD_PIN := by
  exact ⟨rfl, rfl, rfl, rfl, rfl⟩

/-! ## The transport-layer collaborator, for claim C2

The receive-path state logic ("is the receiver mid-byte?") lives in
`seatalk_transport_layer.c` of the companion seatalk library, which is not
part of this repository's sources; the hardware layer only declares and calls
`seatalk_initiate_receive_character`. -/

/-- Modelled from the spec: `seatalk_initiate_receive_character` — the
collaborator's `mayBeginByte` query, supplied by the missing transport layer.
Per the spec, the collaborator "manages the state logic around sending and
receiving data": the query returns true exactly when no byte is currently in
progress (the receiver is not `AWAITING_FIRST_BIT` or `SAMPLING`), and a true
answer commits the collaborator to the new byte. Returning false means the
edge is ignored and the receiver stays idle. -/
structure CollabState where
  receiving_in_progress : Bool
deriving DecidableEq, Repr

/-- Modelled from the spec: the query function of [[CollabState]] as described
there — false (unchanged) when a byte is in progress, true (marking a byte in
progress) when idle. -/
def seatalk_initiate_receive_character (c : CollabState) : Bool × CollabState :=
  if c.receiving_in_progress then (false, c)
  else (true, { receiving_in_progress := true })

/-- An edge event on the combined hardware-layer / collaborator state:
`rxd_irq_handler` consults the collaborator only on its non-debouncing path
(lines 84-94), threading the collaborator's state. -/
def edge_event (s : RxState) (c : CollabState) : RxState × CollabState :=
  if s.debouncing then (s, c)
  else
    let q := seatalk_initiate_receive_character c
    (rxd_irq_handler q.1 s, q.2)

/-- `edge_event` uncurried, for iterating sequences of edge events. -/
def edge_step (p : RxState × CollabState) : RxState × CollabState :=
  edge_event p.1 p.2

/-- C2: an edge event arriving while the receiver is not idle — the debounce
guard armed (`DEBOUNCING`), or a byte in progress at the collaborator
(`AWAITING_FIRST_BIT` / `SAMPLING`) — leaves the receive synchronizer state,
its timer schedule and the collaborator state unchanged; hence every sequence
of such edge events, in particular any sequence while the debounce guard is
armed, leaves the receiver state unchanged. -/
theorem edges_ignored_while_busy (s : RxState) (c : CollabState) (n : Nat)
    (h : s.debouncing = true ∨ c.receiving_in_progress = true) :
    edge_step (s, c) = (s, c) ∧ edge_step^[n] (s, c) = (s, c) := by
  have h1 : edge_step (s, c) = (s, c) := by
    rcases h with h | h
    · simp [edge_step, edge_event, h]
    · rcases hd : s.debouncing with _ | _
      · simp [edge_step, edge_event, hd, seatalk_initiate_receive_character, h,
          rxd_irq_handler]
      · simp [edge_step, edge_event, hd]
  exact ⟨h1, Function.iterate_fixed h1 n⟩

/-- Witness for C2 at a concrete busy state: debounce guard armed, collaborator
idle, five consecutive edge events. -/
theorem edges_ignored_while_busy_witness :
    ((({ debouncing := true, timer := some DEBOUNCE_NANOS } : RxState).debouncing = true ∨
      ({ receiving_in_progress := false } : CollabState).receiving_in_progress = true) ∧
     (edge_step ({ debouncing := true, timer := some DEBOUNCE_NANOS },
        { receiving_in_progress := false }) =
        ({ debouncing := true, timer := some DEBOUNCE_NANOS },
         { receiving_in_progress := false }) ∧
      edge_step^[5] ({ debouncing := true, timer := some DEBOUNCE_NANOS },
        { receiving_in_progress := false }) =
        ({ debouncing := true, timer := some DEBOUNCE_NANOS },
         { receiving_in_progress := false }))) :=
  ⟨Or.inl rfl,
   edges_ignored_while_busy { debouncing := true, timer := some DEBOUNCE_NANOS }
     { receiving_in_progress := false } 5 (Or.inl rfl)⟩

/-! ## Receive run: claim C1

The byte-complete firing does not rearm for `DEBOUNCE_NANOS`: after line 126
has forwarded the expired timer by `BIT_INTERVAL`, the second
`hrtimer_forward_now` on line 133 finds the expiry already in the future and
changes nothing, so the debounce window the code actually produces is one
`BIT_INTERVAL`, contradicting the comment on line 132. -/

/-- C1: evaluated at the failing input `N = 1` — a start edge accepted from
idle, then one receive-timer firing with `seatalk_receive_bit` reporting the
byte complete — the code makes exactly one intake call and arms the debounce
guard, but leaves the timer armed for `BIT_INTERVAL` = 208333 ns, not for the
`DEBOUNCE_NANOS` = 60000 ns the claim (and the code's own comment on line
132) states; the following firing then disarms the guard and the timer. -/
theorem receive_debounce_rearm_is_bit_interval :
    (rxTimerFire (fun _ => false))^[1]
        { state := rxd_irq_handler true rxIdle, intake_calls := 0 } =
      { state := { debouncing := true, timer := some BIT_INTERVAL },
        intake_calls := 1 } ∧
    (rxTimerFire (fun _ => false))^[1]
        { state := rxd_irq_handler true rxIdle, intake_calls := 0 } ≠
      { state := { debouncing := true, timer := some DEBOUNCE_NANOS },
        intake_calls := 1 } ∧
    (rxTimerFire (fun _ => false))^[2]
        { state := rxd_irq_handler true rxIdle, intake_calls := 0 } =
      { state := { debouncing := false, timer := none }, intake_calls := 1 } := by
  exact ⟨rfl, by decide, rfl⟩

/-! ## Transmit run: claim C3 -/

/-- While the collaborator keeps reporting bits pending, the `j`-th transmit
firing (for `j < k`) leaves the timer armed and exactly `j` bits written. -/
lemma tx_iter_sending (k g : Nat) :
    ∀ j, j < k →
    (txTimerFire (fun i => decide (i + 1 < k)))^[j]
        { timer := some (BIT_INTERVAL * g), writes := 0 } =
      { timer := some (if j = 0 then BIT_INTERVAL * g else BIT_INTERVAL),
        writes := j } := by
  intro j
  induction j with
  | zero => intro _; rfl
  | succ j ih =>
    intro hj
    have hj' : j < k := Nat.lt_of_succ_lt hj
    rw [Function.iterate_succ_apply', ih hj']
    have ho : decide (j + 1 < k) = true := decide_eq_true hj
    simp [txTimerFire, transmit_bit, ho]

/-- C3: when the transmit callback finds the byte finished it does not rearm —
`transmit_bit false` leaves the timer disarmed (`HRTIMER_NORESTART`), the
transmitter going idle — so in a run of `k ≥ 1` bits (more pending on the
first `k - 1` calls, finished on the `k`-th) exactly `k` firings write exactly
`k` bits and every later firing opportunity is a no-op: no extra idle timer
firing occurs after the last bit is written. -/
theorem transmit_run_no_extra_firing (k g m : Nat) (h : 1 ≤ k) :
    transmit_bit false = none ∧
    (txTimerFire (fun i => decide (i + 1 < k)))^[k]
        { timer := some (BIT_INTERVAL * g), writes := 0 } =
      { timer := none, writes := k } ∧
    (txTimerFire (fun i => decide (i + 1 < k)))^[k + m]
        { timer := some (BIT_INTERVAL * g), writes := 0 } =
      { timer := none, writes := k } := by
  obtain ⟨K, rfl⟩ : ∃ K, k = K + 1 := ⟨k - 1, (Nat.succ_pred_eq_of_pos h).symm⟩
  have hK := tx_iter_sending (K + 1) g K (Nat.lt_succ_self K)
  have h1 : (txTimerFire (fun i => decide (i + 1 < K + 1)))^[K + 1]
      { timer := some (BIT_INTERVAL * g), writes := 0 } =
      { timer := none, writes := K + 1 } := by
    rw [Function.iterate_succ_apply', hK]
    have ho : decide (K + 1 < K + 1) = false := by simp
    simp [txTimerFire, transmit_bit, ho]
  refine ⟨rfl, h1, ?_⟩
  rw [Nat.add_comm (K + 1) m, Function.iterate_add_apply, h1]
  exact Function.iterate_fixed rfl m

/-- Witness for C3 at `k = 2`, guard delay `g = 3`, and `m = 4` extra firing
opportunities after completion. -/
theorem transmit_run_no_extra_firing_witness :
    1 ≤ 2 ∧
    (transmit_bit false = none ∧
     (txTimerFire (fun i => decide (i + 1 < 2)))^[2]
        { timer := some (BIT_INTERVAL * 3), writes := 0 } =
      { timer := none, writes := 2 } ∧
     (txTimerFire (fun i => decide (i + 1 < 2)))^[2 + 4]
        { timer := some (BIT_INTERVAL * 3), writes := 0 } =
      { timer := none, writes := 2 }) :=
  ⟨by decide, transmit_run_no_extra_firing 2 3 4 (by decide)⟩

/-! ## Configuration surface: claim C7 -/

/-- The bit period the compiled code uses under any requested runtime bit-rate
option: the source fixes `BIT_INTERVAL` with a build-time `#define` and
consults no runtime option, so this function is constant. -/
def code_bit_period (bitRate : Nat) : Nat := BIT_INTERVAL

/-- Modelled from the spec: `BIT_PERIOD = 1e9 / bitRate` — the bit period a
runtime `bitRate` configuration option would have to produce. -/
def spec_bit_period (bitRate : Nat) : Nat := 1000000000 / bitRate

/-- The debounce window the compiled code uses under any requested runtime
`debounceWindowNanos` option: the source fixes `DEBOUNCE_NANOS` with a
build-time `#define` and consults no runtime option. -/
def code_debounce_window (debounceWindowNanos : Nat) : Nat := DEBOUNCE_NANOS

/-- C7 counterexample: requesting bit rate 9600 leaves the code's bit period
at the built-in 208333 ns instead of the 104166 ns the spec's
`BIT_PERIOD = 1e9 / bitRate` demands, and requesting a debounce window of
120000 ns leaves the code's window at the built-in 60000 ns — the bit period
and debounce window do not vary with any runtime option. -/
theorem config_options_counterexample :
    code_bit_period 9600 = 208333 ∧
    spec_bit_period 9600 = 104166 ∧
    code_bit_period 9600 ≠ spec_bit_period 9600 ∧
    code_bit_period 9600 = code_bit_period 4800 ∧
    code_debounce_window 120000 = 60000 := by
  refine ⟨rfl, by decide, by decide, rfl, rfl⟩

/-- C7 amended: the recognized configuration values carry the spec's defaults
— bit rate 4800 (`BIT_INTERVAL = 10^9 / 4800` ns), polarity constants
`GPIO_RX/TX_LOW = 1`, `GPIO_RX/TX_HIGH = 0` (inverted sense), debounce window
60000 ns — but they are fixed at build time as preprocessor constants: for
every requested option value the code's bit period and debounce window are
the same built-in constants. -/
theorem config_fixed_at_build_time :
    (∀ bitRate, code_bit_period bitRate = 208333) ∧
    (∀ w, code_debounce_window w = 60000) ∧
    BIT_INTERVAL = spec_bit_period 4800 ∧
    DEBOUNCE_NANOS = 60000 ∧
    GPIO_RX_LOW_VALUE = 1 ∧ GPIO_RX_HIGH_VALUE = 0 ∧
    GPIO_TX_LOW_VALUE = 1 ∧ GPIO_TX_HIGH_VALUE = 0 :=
  ⟨fun _ => rfl, fun _ => rfl, rfl, rfl, rfl, rfl, rfl, rfl⟩

end SeatalkHardware
